import Mathlib

/-!
Shallow embedding of the Vortex ⇄ Polars bridge from
`src/vortex-python/python/vortex/polars_.py` (expression translation) and
`src/vortex-python/python/vortex/file.py` (the lazy scan bridge), together
with theorems settling the spec claims about them.

Conventions. Python dicts whose single key selects a variant are embedded as
inductives whose constructor corresponds to that key. Python exceptions are
embedded as `Except` errors; each raise site is labelled with the error class
the specification's taxonomy (§7, refined by §4.1) assigns to it:
`ValueError` sites and the datetime-unit `NotImplementedError` site are
`unsupportedConstruct`, the unknown-operator site is `unsupportedOperator`,
the unknown-literal-tag sites (an explicit `NotImplementedError` in the
legacy branch, a `KeyError` from the dict lookup in the `Scalar` branch) are
`unsupportedLiteralType`, and unknown functions are `unsupportedFunction`.
-/

namespace VortexBridge

/-- Binary operator tags of the internal (Vortex) expression IR. -/
inductive BinOp where
  | eq | ne | lt | le | gt | ge | conj | disj
deriving Repr, DecidableEq

/-- Vortex domain types (`vx.null()`, `vx.bool_`, `vx.int_`, `vx.uint`,
`vx.float_`, `vx.utf8`, `vx.binary`, `vx.ext`), each primitive constructor
carrying the `nullable` flag the Python factory receives.  Extension-type
metadata is a byte list. -/
inductive DType where
  | null
  | bool (nullable : Bool)
  | int (width : Nat) (nullable : Bool)
  | uint (width : Nat) (nullable : Bool)
  | float (width : Nat) (nullable : Bool)
  | utf8 (nullable : Bool)
  | binary (nullable : Bool)
  | ext (id : String) (storage : DType) (metadata : List Nat)
deriving Repr, DecidableEq

/-- Nullability of a Vortex dtype.  `vx.null()` takes no nullability
argument: the null type holds only nulls, so it is inherently nullable
(as in Arrow).  An extension type takes its nullability from its storage. -/
def DType.nullable : DType → Bool
  | .null => true
  | .bool n => n
  | .int _ n => n
  | .uint _ n => n
  | .float _ n => n
  | .utf8 n => n
  | .binary n => n
  | .ext _ s _ => s.nullable

/-- Concrete scalar payloads carried by literals.  Translation never
inspects them beyond presence, so a small closed universe suffices. -/
inductive Val where
  | int (n : Int)
  | str (s : String)
  | bool (b : Bool)
deriving Repr, DecidableEq

/-- The internal (Vortex) expression IR: `ve.column`, `ve.literal`, and the
binary expressions built by the `operator.*` functions on `ve.Expr`. -/
inductive VExpr where
  | column (name : String)
  | literal (dtype : DType) (value : Option Val)
  | binary (op : BinOp) (lhs rhs : VExpr)
deriving Repr, DecidableEq

/-- Error classes for the translator and bridge, per the spec's taxonomy. -/
inductive TransError where
  | unrecognizedNode
  | unsupportedOperator (op : String)
  | unsupportedLiteralType (tag : String)
  | unsupportedConstruct (what : String)
  | unsupportedFunction (what : String)
deriving Repr, DecidableEq

/-- Embeds `operator.eq` applied to two `ve.Expr` values. -/
def opEq (l r : VExpr) : VExpr := .binary .eq l r

/-- Embeds `operator.ne`. -/
def opNe (l r : VExpr) : VExpr := .binary .ne l r

/-- Embeds `operator.lt`. -/
def opLt (l r : VExpr) : VExpr := .binary .lt l r

/-- Embeds `operator.le`. -/
def opLe (l r : VExpr) : VExpr := .binary .le l r

/-- Embeds `operator.gt`. -/
def opGt (l r : VExpr) : VExpr := .binary .gt l r

/-- Embeds `operator.ge`. -/
def opGe (l r : VExpr) : VExpr := .binary .ge l r

/-- Embeds `operator.and_` (logical conjunction of expressions). -/
def opAnd (l r : VExpr) : VExpr := .binary .conj l r

/-- Embeds `operator.or_` (logical disjunction of expressions). -/
def opOr (l r : VExpr) : VExpr := .binary .disj l r

/-- The `_OPS` table from `polars_.py` lines 15-26: Polars binary-operator
tag to constructor.  `And`/`LogicalAnd` are both bound to `operator.and_`
and `Or`/`LogicalOr` to `operator.or_`, exactly as in the dict. -/
def _OPS : String → Option (VExpr → VExpr → VExpr)
  | "Eq" => some opEq
  | "NotEq" => some opNe
  | "Lt" => some opLt
  | "LtEq" => some opLe
  | "Gt" => some opGt
  | "GtEq" => some opGe
  | "And" => some opAnd
  | "Or" => some opOr
  | "LogicalAnd" => some opAnd
  | "LogicalOr" => some opOr
  | _ => none

/-- The `_LITERAL_TYPES` table from `polars_.py` lines 33-49: Polars scalar
type tag to dtype factory, nullability taken from `v is None`.  The `Null`
entry calls `vx.null()` and ignores `v`, as in the source. -/
def _LITERAL_TYPES : String → Option (Option Val → DType)
  | "Boolean" => some fun v => .bool v.isNone
  | "Int" => some fun v => .int 64 v.isNone
  | "Int8" => some fun v => .int 8 v.isNone
  | "Int16" => some fun v => .int 16 v.isNone
  | "Int32" => some fun v => .int 32 v.isNone
  | "Int64" => some fun v => .int 64 v.isNone
  | "UInt8" => some fun v => .uint 8 v.isNone
  | "UInt16" => some fun v => .uint 16 v.isNone
  | "UInt32" => some fun v => .uint 32 v.isNone
  | "UInt64" => some fun v => .uint 64 v.isNone
  | "Float32" => some fun v => .float 32 v.isNone
  | "Float64" => some fun v => .float 64 v.isNone
  | "Null" => some fun _ => .null
  | "String" => some fun v => .utf8 v.isNone
  | "Binary" => some fun v => .binary v.isNone
  | _ => none

/-- The `AnyValue` payload of the current `Scalar{dtype, value}` wire shape:
a single-key object that is `Null`, `StringOwned`, or something else. -/
inductive AnyValue where
  | nullTag
  | stringOwned (s : String)
  | otherTag (tag : String)
deriving Repr, DecidableEq

/-- Payload of the legacy `Literal{...}` wire shape: a single-key object
whose key is `Scalar`, `Series`, `DateTime`, `Dyn`, or a plain type tag. -/
inductive LitPayload where
  | scalarTag (dtype : String) (value : AnyValue)
  | series
  | dateTime (value : Option Val) (unit : String) (tz : Option String)
  | dyn (inner : LitPayload)
  | typed (tag : String) (value : Option Val)
deriving Repr, DecidableEq

/-- The single inner key of a legacy literal payload, i.e.
`next(iter(expr.keys()), None)` in the source. -/
def LitPayload.key : LitPayload → String
  | .scalarTag _ _ => "Scalar"
  | .series => "Series"
  | .dateTime _ _ _ => "DateTime"
  | .dyn _ => "Dyn"
  | .typed tag _ => tag

/-- Function tags reaching the `Function` branch: a boolean `IsIn` with its
`nulls_equal` flag, a string `Contains`, or any other function. -/
inductive FnTag where
  | booleanIsIn (nullsEqual : Bool)
  | stringContains
  | otherFn (name : String)
deriving Repr, DecidableEq

/-- The foreign (Polars) serialized expression tree, one constructor per
top-level variant key dispatched on by `_polars_to_vortex`. -/
inductive PExpr where
  | binaryExpr (left : PExpr) (op : String) (right : PExpr)
  | column (name : String)
  | scalar (dtype : String) (value : AnyValue)
  | literal (payload : LitPayload)
  | function (inputs : List PExpr) (fn : FnTag)
deriving Repr

/-- The value-unwrapping step of the `Scalar` branch: `Null` becomes an
absent value, `StringOwned` unwraps to its string, anything else raises
`ValueError` (spec class `UnsupportedConstruct`). -/
def unwrapAnyValue : AnyValue → Except TransError (Option Val)
  | .nullTag => .ok none
  | .stringOwned s => .ok (some (.str s))
  | .otherTag t => .error (.unsupportedConstruct ("scalar value " ++ t))

/-- The `Scalar{dtype, value}` branch of `_polars_to_vortex`: unwrap the
value, then `ve.literal(_LITERAL_TYPES[dtype](value), value)`.  The dict
lookup raises `KeyError` for a tag outside the resolver; the spec taxonomy
classifies that as `UnsupportedLiteralType`. -/
def scalarBranch (dtype : String) (value : AnyValue) : Except TransError VExpr :=
  match unwrapAnyValue value with
  | .error e => .error e
  | .ok v =>
    match _LITERAL_TYPES dtype with
    | some f => .ok (.literal (f v) v)
    | none => .error (.unsupportedLiteralType dtype)

/-- The resolver lookup at the end of the legacy `Literal` branch:
`if literal_type not in _LITERAL_TYPES: raise NotImplementedError` and
otherwise `ve.literal(_LITERAL_TYPES[literal_type](value), value)`. -/
def resolverLookup (tag : String) (v : Option Val) : Except TransError VExpr :=
  match _LITERAL_TYPES tag with
  | some f => .ok (.literal (f v) v)
  | none => .error (.unsupportedLiteralType tag)

/-- The unit if/elif chain of the `DateTime` branch, as the metadata byte it
assigns (`none` for the final else that raises). -/
def unitByte : String → Option Nat
  | "Nanoseconds" => some 0
  | "Microseconds" => some 1
  | "Milliseconds" => some 2
  | "Seconds" => some 3
  | _ => none

/-- The `DateTime` branch of the legacy `Literal` case: resolve the unit
byte (unknown unit raises first), then reject a non-null `tz`, then append
the two reserved zero bytes and build the extension literal
`ve.literal(vx.ext("vortex.timestamp", vx.int_(64, nullable=value is None),
metadata), value)`. -/
def dateTimeBranch (value : Option Val) (unit : String) (tz : Option String) :
    Except TransError VExpr :=
  match unitByte unit with
  | none => .error (.unsupportedConstruct ("date time unit " ++ unit))
  | some b =>
    match tz with
    | some t => .error (.unsupportedConstruct ("DateTime with timezone " ++ t))
    | none =>
      .ok (.literal (.ext "vortex.timestamp" (.int 64 value.isNone) [b, 0, 0]) value)

/-- The tail of the `Function` branch after all inputs were translated:
`IsIn` with `nulls_equal` raises `ValueError`, otherwise the code falls
through to the trailing `NotImplementedError`; `StringExpr.Contains`
raises `ValueError`; any other function raises `NotImplementedError`. -/
def functionBranch : FnTag → Except TransError VExpr
  | .booleanIsIn nullsEqual =>
    if nullsEqual then .error (.unsupportedConstruct "nulls_equal in is-in")
    else .error (.unsupportedFunction "Boolean IsIn")
  | .stringContains => .error (.unsupportedConstruct "StringExpr Contains")
  | .otherFn name => .error (.unsupportedFunction name)

/-- The legacy `Literal{...}` branch of `_polars_to_vortex`, dispatching on
the single inner key in source order: `Scalar` delegates to the `Scalar`
branch, `Series` raises, `DateTime` takes the temporal path, `Dyn` unwraps
one level and goes straight to the resolver lookup (the special cases above
are not re-checked), and any other key is looked up in the resolver. -/
def translateLit : LitPayload → Except TransError VExpr
  | .scalarTag dtype value => scalarBranch dtype value
  | .series => .error (.unsupportedConstruct "Series literal")
  | .dateTime v unit tz => dateTimeBranch v unit tz
  | .dyn inner =>
    match inner with
    | .typed tag v => resolverLookup tag v
    | p => .error (.unsupportedLiteralType p.key)
  | .typed tag v => resolverLookup tag v

mutual

/-- The recursive translator `_polars_to_vortex` from `polars_.py`:
dispatch on the first matching variant key in source order (`BinaryExpr`,
`Column`, `Scalar`, `Literal`, `Function`); in the `BinaryExpr` case both
operands are translated before the operator is looked up. -/
def _polars_to_vortex : PExpr → Except TransError VExpr
  | .binaryExpr left op right =>
    match _polars_to_vortex left with
    | .error e => .error e
    | .ok lhs =>
      match _polars_to_vortex right with
      | .error e => .error e
      | .ok rhs =>
        match _OPS op with
        | some fc => .ok (fc lhs rhs)
        | none => .error (.unsupportedOperator op)
  | .column name => .ok (.column name)
  | .scalar dtype value => scalarBranch dtype value
  | .literal payload => translateLit payload
  | .function inputs fn =>
    match translateInputs inputs with
    | .error e => .error e
    | .ok _ => functionBranch fn

/-- The list comprehension `[_polars_to_vortex(e) for e in expr["input"]]`:
translates every function input in order, propagating the first failure. -/
def translateInputs : List PExpr → Except TransError (List VExpr)
  | [] => .ok []
  | e :: es =>
    match _polars_to_vortex e with
    | .error err => .error err
    | .ok v =>
      match translateInputs es with
      | .error err => .error err
      | .ok vs => .ok (v :: vs)

end

/-- The predicate step at the top of `_io_source`:
`if predicate is not None: predicate = polars_to_vortex(predicate)`. -/
def translatePredicate : Option PExpr → Except TransError (Option VExpr)
  | some p =>
    match _polars_to_vortex p with
    | .error e => .error e
    | .ok v => .ok (some v)
  | none => .ok none

/-- An Arrow schema field: name and type. -/
structure SchemaField where
  name : String
  dtype : DType
deriving Repr, DecidableEq

/-- An Arrow schema, as the ordered list of its fields. -/
abbrev Schema := List SchemaField

/-- A record batch / dataframe: its schema and its rows (each row one value
per field, absent values allowed). -/
structure Batch where
  schema : Schema
  rows : List (List (Option Val))
deriving Repr, DecidableEq

/-- Number of rows of a batch. -/
def Batch.numRows (b : Batch) : Nat := b.rows.length

/-- The sentinel built from `pa.RecordBatch.from_arrays` over one empty
array per field of `reader.schema`: zero rows, exactly that schema. -/
def emptyBatch (s : Schema) : Batch := ⟨s, []⟩

/-- The `pl.DataFrame._from_arrow` conversion applied to each yielded
batch.  It re-represents the same schema and rows in the foreign engine, so
on this abstraction it is the identity. -/
def plFromArrow (b : Batch) : Batch := b

/-- The argument record of one internal scan: what `VortexFile.to_arrow`
is invoked with (`projection`, `expr`, and `batch_size`, the last `none`
when the keyword is not passed and takes its default). -/
structure ScanRequest where
  projection : Option (List String)
  predicate : Option VExpr
  batchSize : Option Nat
deriving Repr, DecidableEq

/-- The `pa.RecordBatchReader` returned by `VortexFile.to_arrow`: its
negotiated (possibly projected) schema and the batches it will yield. -/
structure Reader where
  schema : Schema
  batches : List Batch

/-- Modelled from the spec: a Vortex file/relation.  The native
`VortexFile` class and its `to_arrow` method are not under `src/`; per §6
the relation exposes `scan(projection, predicate, batchSize)` returning a
lazy finite sequence of batches, embedded here as the `toArrow` field. -/
structure VortexFile where
  schema : Schema
  toArrow : ScanRequest → Reader

/-- Everything observable from running the body of the `_io_source`
generator to completion: the scans it opened, the batches it yielded in
order, and the error that ended it (if any, raised after `batches`). -/
structure BridgeRun where
  opened : List ScanRequest
  batches : List Batch
  error : Option TransError
deriving Repr, DecidableEq

/-- A Python generator object as returned by calling a generator function:
no body code has run yet; `run` is what iterating it will do. -/
structure LazyBatchGen where
  run : BridgeRun
deriving Repr, DecidableEq

/-- The body of `_io_source` from `file.py` lines 24-46: translate the
predicate if present (a failure ends the run before anything else), open
one internal scan via `self.to_arrow(projection=with_columns,
expr=predicate)` — note `batch_size` is not passed — yield each batch
through `pl.DataFrame._from_arrow`, then unconditionally yield one
zero-row batch with `reader.schema`.  `n_rows` and `batch_size` are
received but never read. -/
def ioSourceRun (f : VortexFile) (with_columns : Option (List String))
    (predicate : Option PExpr) (n_rows : Option Nat) (batch_size : Option Nat) :
    BridgeRun :=
  match translatePredicate predicate with
  | .error e => ⟨[], [], some e⟩
  | .ok vp =>
    let req : ScanRequest := ⟨with_columns, vp, none⟩
    let reader := f.toArrow req
    ⟨[req], reader.batches.map plFromArrow ++ [plFromArrow (emptyBatch reader.schema)], none⟩

/-- Calling `_io_source(with_columns, predicate, n_rows, batch_size)`:
since `_io_source` is a generator function, the call itself executes none
of the body and cannot raise; it returns a generator whose iteration
performs `ioSourceRun`. -/
def _io_source (f : VortexFile) (with_columns : Option (List String))
    (predicate : Option PExpr) (n_rows : Option Nat) (batch_size : Option Nat) :
    LazyBatchGen :=
  ⟨ioSourceRun f with_columns predicate n_rows batch_size⟩

/-- Follows the spec's words, not the source (for comparison with
`_io_source`): §7 has predicate translation happen at query-registration
time, so registration itself returns the translation error and only a
successful registration produces a generator. -/
def ioSourceFailFast (f : VortexFile) (with_columns : Option (List String))
    (predicate : Option PExpr) (n_rows : Option Nat) (batch_size : Option Nat) :
    Except TransError LazyBatchGen :=
  match translatePredicate predicate with
  | .error e => .error e
  | .ok _ => .ok (_io_source f with_columns predicate n_rows batch_size)

/-- Splits a list into consecutive chunks of size `k`, with the list's
length as recursion fuel (each step consumes at least one element when
`k > 0`). -/
def chunkGo (k : Nat) : Nat → List α → List (List α)
  | _, [] => []
  | 0, _ :: _ => []
  | n + 1, x :: xs => ((x :: xs).take k) :: chunkGo k n ((x :: xs).drop k)

/-- Consecutive chunks of size `k` of a list. -/
def chunkBy (k : Nat) (xs : List α) : List (List α) := chunkGo k xs.length xs

/-- Schema of the two-row example file: one non-nullable i64 column. -/
def cSchema : Schema := [⟨"a", .int 64 false⟩]

/-- The two rows of the example file. -/
def cRows : List (List (Option Val)) := [[some (.int 1)], [some (.int 2)]]

/-- Modelled from the spec: the native `to_arrow` scan of the example
file, honoring `batchSize` by chunking the rows (`ceil(M / K)` batches, as
the repository's own `test_to_arrow_batch_size` exercises) and producing a
single batch when `batchSize` is absent. -/
def cScan (req : ScanRequest) : Reader :=
  ⟨cSchema, (chunkBy ((req.batchSize).getD cRows.length) cRows).map fun rs => ⟨cSchema, rs⟩⟩

/-- A concrete two-row, one-column Vortex file used in witnesses and
counterexamples. -/
def cFile : VortexFile := ⟨cSchema, cScan⟩

/-- A predicate whose translation fails: `Xor` is outside `_OPS`. -/
def badPred : PExpr := .binaryExpr (.column "a") "Xor" (.column "b")

/-- C4: for an operator tag bound in `_OPS`, translating
`BinaryExpr{op, l, r}` is the table's constructor applied to the
translations of `l` and `r` (both operands are translated first, so
their failures propagate); `And`/`LogicalAnd` and `Or`/`LogicalOr` are
bound to the same constructors; and for a tag outside the table with
translatable operands, translation fails with `unsupportedOperator`. -/
theorem binary_op_table_sound (op : String) (fc : VExpr → VExpr → VExpr)
    (l r : PExpr) (h : _OPS op = some fc) :
    (_polars_to_vortex (.binaryExpr l op r)
      = (_polars_to_vortex l).bind fun lhs =>
          (_polars_to_vortex r).bind fun rhs => .ok (fc lhs rhs))
    ∧ _OPS "And" = _OPS "LogicalAnd"
    ∧ _OPS "Or" = _OPS "LogicalOr"
    ∧ ∀ op2 l2 r2 a b, _OPS op2 = none →
        _polars_to_vortex l2 = .ok a → _polars_to_vortex r2 = .ok b →
        _polars_to_vortex (.binaryExpr l2 op2 r2) = .error (.unsupportedOperator op2) := by
  refine ⟨?_, rfl, rfl, ?_⟩
  · cases hl : _polars_to_vortex l with
    | error e => simp [_polars_to_vortex, hl, Except.bind]
    | ok lhs =>
      cases hr : _polars_to_vortex r with
      | error e => simp [_polars_to_vortex, hl, hr, Except.bind]
      | ok rhs => simp [_polars_to_vortex, hl, hr, h, Except.bind]
  · intro op2 l2 r2 a b hop hl hr
    simp [_polars_to_vortex, hl, hr, hop]

/-- Witness for C4 at concrete inputs: `Eq` on two columns translates to
the equality constructor applied to the two translated columns, and `Xor`
on the same columns fails with `unsupportedOperator`. -/
theorem binary_op_table_sound_witness :
    (_polars_to_vortex (.binaryExpr (.column "x") "Eq" (.column "y"))
      = (_polars_to_vortex (.column "x")).bind fun lhs =>
          (_polars_to_vortex (.column "y")).bind fun rhs => .ok (opEq lhs rhs))
    ∧ _polars_to_vortex (.binaryExpr (.column "x") "Xor" (.column "y"))
      = .error (.unsupportedOperator "Xor") := by
  have h := binary_op_table_sound "Eq" opEq (.column "x") (.column "y") rfl
  exact ⟨h.1, h.2.2.2 "Xor" (.column "x") (.column "y") (.column "x") (.column "y") rfl rfl rfl⟩

/-- C5 counterexample: the resolver entry for tag `Null` ignores the
carried value (`vx.null()` takes no nullability argument), and the null
dtype is inherently nullable; so `Literal{Null: 5}` yields a literal whose
dtype is nullable although its value is present, refuting "nullable flag
true if and only if v is absent" as stated over every resolver tag. -/
theorem literal_null_tag_breaks_nullable_iff :
    _polars_to_vortex (.literal (.typed "Null" (some (.int 5))))
      = .ok (.literal .null (some (.int 5)))
    ∧ DType.nullable .null = true
    ∧ (some (Val.int 5)).isNone = false :=
  ⟨rfl, rfl, rfl⟩

/-- C5 amended: for every resolver tag except `Null`, translating
`Literal{T: v}` yields the literal of the resolved dtype paired with `v`,
and that dtype's nullable flag is true exactly when `v` is absent. -/
theorem literal_resolver_nullable (tag : String) (f : Option Val → DType)
    (v : Option Val) (h : _LITERAL_TYPES tag = some f) (hne : tag ≠ "Null") :
    _polars_to_vortex (.literal (.typed tag v)) = .ok (.literal (f v) v)
    ∧ (f v).nullable = v.isNone := by
  constructor
  · simp [_polars_to_vortex, translateLit, resolverLookup, h]
  · unfold _LITERAL_TYPES at h
    split at h
    all_goals first
      | exact absurd rfl hne
      | (injection h with h; subst h; simp [DType.nullable])
      | simp_all

/-- Witness for C5 (amended) at tag `Int32` with a present value: the
translation and the non-nullable dtype. -/
theorem literal_resolver_nullable_witness :
    _polars_to_vortex (.literal (.typed "Int32" (some (.int 7))))
      = .ok (.literal (.int 32 false) (some (.int 7)))
    ∧ DType.nullable (.int 32 false) = false := by
  have h := literal_resolver_nullable "Int32" (fun v => .int 32 v.isNone)
    (some (.int 7)) rfl (by decide)
  exact ⟨h.1, h.2⟩

/-- C6: a `DateTime` literal with a non-null `tz` fails with an
`unsupportedConstruct` error for every unit: for a recognized unit the
timezone check raises, and for an unrecognized unit the unit check raises
first — also an `unsupportedConstruct` under the spec's taxonomy. -/
theorem datetime_tz_unsupported (v : Option Val) (unit : String) (tz : String) :
    ∃ what, _polars_to_vortex (.literal (.dateTime v unit (some tz)))
      = .error (.unsupportedConstruct what) := by
  cases h : unitByte unit with
  | none =>
    refine ⟨"date time unit " ++ unit, ?_⟩
    simp [_polars_to_vortex, translateLit, dateTimeBranch, h]
  | some b =>
    refine ⟨"DateTime with timezone " ++ tz, ?_⟩
    simp [_polars_to_vortex, translateLit, dateTimeBranch, h]

/-- C7: a type tag outside the closed resolver fails with
`unsupportedLiteralType`, both in the legacy `Literal{T: v}` branch and in
the current `Scalar{dtype, value}` branch (there, once the value shape has
been unwrapped successfully; in the source the failure is the `KeyError`
of the resolver dict lookup). -/
theorem unknown_literal_tag_fails (tag : String) (h : _LITERAL_TYPES tag = none) :
    (∀ v, _polars_to_vortex (.literal (.typed tag v))
        = .error (.unsupportedLiteralType tag))
    ∧ ∀ av v, unwrapAnyValue av = .ok v →
        _polars_to_vortex (.scalar tag av) = .error (.unsupportedLiteralType tag) := by
  constructor
  · intro v
    simp [_polars_to_vortex, translateLit, resolverLookup, h]
  · intro av v hav
    simp [_polars_to_vortex, scalarBranch, hav, h]

/-- Witness for C7 at the tag `Decimal`, absent from the resolver: both the
legacy literal shape and the current scalar shape fail with
`unsupportedLiteralType "Decimal"`. -/
theorem unknown_literal_tag_fails_witness :
    _polars_to_vortex (.literal (.typed "Decimal" none))
      = .error (.unsupportedLiteralType "Decimal")
    ∧ _polars_to_vortex (.scalar "Decimal" .nullTag)
      = .error (.unsupportedLiteralType "Decimal") := by
  have h := unknown_literal_tag_fails "Decimal" rfl
  exact ⟨h.1 none, h.2 .nullTag none rfl⟩

/-- C8 counterexample: `Dyn` does not re-dispatch through the special
cases, so `Literal{Dyn: {Scalar: ...}}` fails with
`unsupportedLiteralType "Scalar"` while `Literal{Scalar: ...}` on the very
same payload translates successfully, refuting
`translate(Literal{Dyn: inner}) = translate(Literal{inner})` for every
inner payload. -/
theorem dyn_unwrap_not_full_redispatch :
    _polars_to_vortex (.literal (.dyn (.scalarTag "Int64" .nullTag)))
      = .error (.unsupportedLiteralType "Scalar")
    ∧ _polars_to_vortex (.literal (.scalarTag "Int64" .nullTag))
      = .ok (.literal (.int 64 true) none) :=
  ⟨rfl, rfl⟩

/-- C8 amended: unwrapping `Dyn` re-dispatches only into the resolver
lookup: for an inner key that is a plain type tag the result agrees with
translating `Literal{inner}`, and for the special inner keys (`Scalar`,
`Series`, `DateTime`, `Dyn`) translation fails with
`unsupportedLiteralType` on that key instead of re-entering their
branches. -/
theorem dyn_unwrap_resolver_only :
    (∀ tag v, _polars_to_vortex (.literal (.dyn (.typed tag v)))
        = _polars_to_vortex (.literal (.typed tag v)))
    ∧ ∀ inner : LitPayload, (∀ tag v, inner ≠ .typed tag v) →
        _polars_to_vortex (.literal (.dyn inner))
          = .error (.unsupportedLiteralType inner.key) := by
  constructor
  · intro tag v
    rfl
  · intro inner hne
    cases inner with
    | typed tag v => exact absurd rfl (hne tag v)
    | scalarTag d a => rfl
    | series => rfl
    | dateTime v u tz => rfl
    | dyn p => rfl

/-- Witness for C8 (amended): a resolver tag under `Dyn` agrees with the
undecorated legacy literal, and `Dyn` around a `Series` payload fails with
`unsupportedLiteralType "Series"`. -/
theorem dyn_unwrap_resolver_only_witness :
    _polars_to_vortex (.literal (.dyn (.typed "Boolean" none)))
      = _polars_to_vortex (.literal (.typed "Boolean" none))
    ∧ _polars_to_vortex (.literal (.dyn .series))
      = .error (.unsupportedLiteralType "Series") := by
  refine ⟨dyn_unwrap_resolver_only.1 "Boolean" none, ?_⟩
  have h := dyn_unwrap_resolver_only.2 .series (fun _ _ hh => LitPayload.noConfusion hh)
  exact h

/-- C9: a `DateTime` literal with unit `Seconds` and null `tz` translates,
for every carried value, to a literal of the extension dtype
`vortex.timestamp` over i64 storage (nullable exactly when the value is
absent) with metadata bytes `03 00 00`, paired with the value. -/
theorem datetime_seconds_metadata (v : Option Val) :
    _polars_to_vortex (.literal (.dateTime v "Seconds" none))
      = .ok (.literal (.ext "vortex.timestamp" (.int 64 v.isNone) [3, 0, 0]) v) := by
  cases v <;> rfl

/-- C1 counterexample: over the two-row file, an invocation with
`batch_size = 1` and no predicate opens one scan whose request carries
`batchSize = none` — the callback's batch size is not forwarded — and
yields 2 batches in total (the reader's single default-chunked batch plus
the sentinel), not the `ceil(2 / 1) + 1 = 3` the claim predicts for a scan
opened with `batchSize = 1`. -/
theorem batch_size_not_forwarded :
    (_io_source cFile none none none (some 1)).run.opened = [⟨none, none, none⟩]
    ∧ (_io_source cFile none none none (some 1)).run.batches.length = 2 :=
  ⟨rfl, rfl⟩

/-- C1 amended: with no predicate, the bridge opens exactly one internal
scan, passing the projection through and leaving `batchSize` absent, and
yields the reader's batches followed by exactly one sentinel — so the
non-sentinel batch count is whatever the internal reader produces, not a
function of the callback's `batch_size`. -/
theorem one_scan_default_batch_size (f : VortexFile) (wc : Option (List String))
    (nr bs : Option Nat) :
    (_io_source f wc none nr bs).run.opened = [⟨wc, none, none⟩]
    ∧ (_io_source f wc none nr bs).run.batches
      = (f.toArrow ⟨wc, none, none⟩).batches.map plFromArrow
        ++ [plFromArrow (emptyBatch (f.toArrow ⟨wc, none, none⟩).schema)] :=
  ⟨rfl, rfl⟩

/-- C2: whenever the predicate translates (in particular when it is
absent), the yielded sequence is the reader's batches followed by exactly
one unconditionally appended batch that has zero rows and the reader's
negotiated (possibly projected) schema — also when the reader yields zero
batches. -/
theorem sentinel_batch_schema (f : VortexFile) (wc : Option (List String))
    (pred : Option PExpr) (nr bs : Option Nat) (vp : Option VExpr)
    (h : translatePredicate pred = .ok vp) :
    (_io_source f wc pred nr bs).run.batches
      = (f.toArrow ⟨wc, vp, none⟩).batches.map plFromArrow
        ++ [plFromArrow (emptyBatch (f.toArrow ⟨wc, vp, none⟩).schema)]
    ∧ (_io_source f wc pred nr bs).run.batches.getLast?
      = some (emptyBatch (f.toArrow ⟨wc, vp, none⟩).schema)
    ∧ (emptyBatch (f.toArrow ⟨wc, vp, none⟩).schema).numRows = 0
    ∧ (emptyBatch (f.toArrow ⟨wc, vp, none⟩).schema).schema
      = (f.toArrow ⟨wc, vp, none⟩).schema := by
  refine ⟨?_, ?_, rfl, rfl⟩
  · simp [_io_source, ioSourceRun, h]
  · simp [_io_source, ioSourceRun, h, plFromArrow]

/-- Witness for C2: on the two-row file with no predicate, the sequence is
the single real batch followed by the zero-row sentinel with the reader's
schema. -/
theorem sentinel_batch_schema_witness :
    (_io_source cFile none none none none).run.batches
      = [⟨cSchema, cRows⟩, emptyBatch cSchema]
    ∧ (_io_source cFile none none none none).run.batches.getLast?
      = some (emptyBatch cSchema) := by
  have h := sentinel_batch_schema cFile none none none none none rfl
  exact ⟨h.1, h.2.1⟩

/-- C3 counterexample: registering a query whose predicate uses the
untranslatable operator `Xor` does not raise at registration time — the
callback is a generator function, so calling it returns a generator with
no body code executed — and the translation failure shows up only in the
generator's run, i.e. during lazy iteration, before any batch (sentinel
included) is yielded and with no scan opened; the spec-following fail-fast
registration `ioSourceFailFast` would instead return the error at
registration. -/
theorem translation_error_is_lazy :
    _io_source cFile none (some badPred) none none
      = ⟨⟨[], [], some (.unsupportedOperator "Xor")⟩⟩
    ∧ ioSourceFailFast cFile none (some badPred) none none
      = .error (.unsupportedOperator "Xor") :=
  ⟨rfl, rfl⟩

/-- C3 amended: when predicate translation fails, the error surfaces when
the returned generator is first pulled (not at registration, since the
generator body is deferred), and at that point no batch — the sentinel
included — has been yielded and no internal scan has been opened. -/
theorem translation_error_aborts_run (f : VortexFile) (wc : Option (List String))
    (p : PExpr) (nr bs : Option Nat) (e : TransError)
    (h : _polars_to_vortex p = .error e) :
    (_io_source f wc (some p) nr bs).run = ⟨[], [], some e⟩ := by
  simp [_io_source, ioSourceRun, translatePredicate, h]

/-- Witness for C3 (amended): the `Xor` predicate fails translation and
its run opens no scan, yields no batch, and carries the error. -/
theorem translation_error_aborts_run_witness :
    _polars_to_vortex badPred = .error (.unsupportedOperator "Xor")
    ∧ (_io_source cFile none (some badPred) none none).run
      = ⟨[], [], some (.unsupportedOperator "Xor")⟩ :=
  ⟨rfl, translation_error_aborts_run cFile none badPred none none _ rfl⟩

/-- C10: the registration callback's `n_rows` argument is never read, so
two invocations differing only in `n_rows` produce identical generators —
same scans opened, same batch sequence (schemas, row counts and contents),
same error, for every file, projection, predicate and batch size. -/
theorem n_rows_has_no_effect (f : VortexFile) (wc : Option (List String))
    (pred : Option PExpr) (n1 n2 : Option Nat) (bs : Option Nat) :
    _io_source f wc pred n1 bs = _io_source f wc pred n2 bs :=
  rfl

end VortexBridge
